import Mathlib

/-!
Shallow embedding of `cerebras_unofficial.py` (class `Cerebras`).

The Python client is stateful and performs network and file I/O.  We model:
  * JSON values (`Json`) with Python-style subscripting and truthiness;
  * the single on-disk config file `Config/Cerebras-Config.json`
    (`FileContent`; the parent directory is assumed to exist, so writes
    always succeed);
  * the network as an oracle (`Env`) giving the outcome of the i-th POST to
    each of the two endpoints (credential acquisition and chat completion);
  * the client object (`Client`) with `api_key : Option Json`, where `none`
    means the Python attribute `self.api_key` was never assigned (so that
    reading it raises `AttributeError`);
  * the three methods as fueled interpreters (`refresh_api_key`, `clientInit`,
    `generate`), fuel being needed because the source recurses unboundedly.

`World` carries the file plus counters of network calls actually issued, so
that properties of the form "performs no credential-acquisition call" are
statable.
-/

/-- JSON values.  Numbers are modelled as rationals (Python ints and floats
are only stored and passed through by this client, never computed with). -/
inductive Json where
  | null
  | bool (b : Bool)
  | num (q : Rat)
  | str (s : String)
  | arr (xs : List Json)
  | obj (fields : List (String × Json))
deriving Repr

/-- Python truthiness (`if not self.api_key`, line 84). -/
def Json.truthy : Json → Bool
  | .null => false
  | .bool b => b
  | .num q => q != 0
  | .str s => !s.data.isEmpty
  | .arr xs => !xs.isEmpty
  | .obj fields => !fields.isEmpty

/-- `d.get(k, default)` on a Python value: returns `none` when the receiver
is not a dict (Python raises `AttributeError` there). -/
def Json.pyGet (j : Json) (k : String) (deflt : Json) : Option Json :=
  match j with
  | .obj fields => some ((fields.lookup k).getD deflt)
  | _ => none

/-- `j[k]` subscripting: `.error` carries the message of the exception Python
would raise (`KeyError` / `TypeError`). -/
def Json.subKey (j : Json) (k : String) : Except String Json :=
  match j with
  | .obj fields =>
    match fields.lookup k with
    | some v => Except.ok v
    | none => Except.error ("KeyError: " ++ k)
  | _ => Except.error "TypeError: object is not subscriptable"

/-- `j[i]` subscripting with an integer index. -/
def Json.subIdx (j : Json) (i : Nat) : Except String Json :=
  match j with
  | .arr xs =>
    match xs.get? i with
    | some v => Except.ok v
    | none => Except.error "IndexError: list index out of range"
  | _ => Except.error "TypeError: object is not subscriptable"

/-- f-string rendering of a Python value, as far as this client needs it (the
`api_key` placed in the bearer header at line 171 is in practice a string or
`None`; containers never reach a header and get placeholder renderings). -/
def pyStr : Json → String
  | .null => "None"
  | .bool b => if b then "True" else "False"
  | .num q => toString q
  | .str s => s
  | .arr _ => "<list>"
  | .obj _ => "<dict>"

/-- `s.startswith(pre)` (lines 67 and 92). -/
def pyStartswith (s pre : String) : Bool :=
  pre.data.isPrefixOf s.data

/-- Python truthiness of `cookies_or_api_key : Optional[str]` (the left
conjunct of `if cookies_or_api_key and ...`). -/
def pyTruthyOptStr : Option String → Bool
  | none => false
  | some s => !s.data.isEmpty

/-- Line 81: `self.api_key = data.get("data", \x7b\x7d).get("GetMyDemoApiKey")`.
`none` models the `AttributeError` raised when an intermediate value is not a
dict; otherwise the assigned value (`Json.null` models Python `None`). -/
def extractApiKey (data : Json) : Option Json :=
  match data.pyGet "data" (Json.obj []) with
  | none => none
  | some inner => inner.pyGet "GetMyDemoApiKey" Json.null

/-- Line 198: `response.json()["choices"][0]["message"]["content"]`. -/
def extractContent (body : Json) : Except String Json :=
  Json.subKey body "choices" >>= fun choices =>
  Json.subIdx choices 0 >>= fun choice0 =>
  Json.subKey choice0 "message" >>= fun msg =>
  Json.subKey msg "content"

/-- Outcome of one `requests.post`: either a response with a status code and
a JSON body, or a raised exception (network error etc.) with its message. -/
inductive HttpOutcome where
  | resp (status : Nat) (body : Json)
  | exn (msg : String)
deriving Repr

/-- State of the config file `Config/Cerebras-Config.json`: missing, present
but not valid JSON (so `json.load` raises `JSONDecodeError`), or holding a
JSON document. -/
inductive FileContent where
  | absent
  | invalid
  | json (j : Json)
deriving Repr

/-- The client object.  `api_key = none` models the attribute never having
been assigned (reading it then raises `AttributeError`); `some v` models
`self.api_key` holding the Python value `v`. -/
structure Client where
  cookies_or_api_key : Option String
  max_tokens : Nat
  timeout : Nat
  model : String
  temperature : Rat
  top_p : Rat
  system_prompt : String
  api_key : Option Json
deriving Repr

/-- The request built by `generate` (lines 169-191): headers, payload, and
the `timeout` argument of the `requests.post` call (line 191 passes the
literal `timeout=None`, modelled as the `Option Nat` field being `none`). -/
structure CompletionRequest where
  url : String
  accept : String
  authorization : String
  payload : Json
  timeout : Option Nat
deriving Repr

/-- Lines 169-191: the header dict, the `json_data` payload, and the literal
`timeout=None` argument passed to `requests.post`, independent of the
configured `self.timeout`. -/
def mkCompletionRequest (c : Client) (key : Json) (prompt : String) : CompletionRequest :=
  { url := "https://api.cerebras.ai/v1/chat/completions"
    accept := "application/json"
    authorization := "Bearer " ++ pyStr key
    payload := Json.obj
      [("messages", Json.arr
          [Json.obj [("content", Json.str c.system_prompt), ("role", Json.str "system")],
           Json.obj [("content", Json.str prompt), ("role", Json.str "user")]]),
       ("model", Json.str c.model),
       ("stream", Json.bool false),
       ("temperature", Json.num c.temperature),
       ("top_p", Json.num c.top_p),
       ("max_completion_tokens", Json.num c.max_tokens)]
    timeout := none }

/-- The network oracle: the outcome of the i-th POST to the completion
endpoint (which may depend on the request sent) and of the i-th POST to the
credential-acquisition endpoint `chat.cerebras.ai/api/graphql`.  The
acquisition request is not modelled in detail (its headers include a random
user agent); only the number of calls and their outcomes matter here. -/
structure Env where
  completion : Nat → CompletionRequest → HttpOutcome
  refresh : Nat → HttpOutcome

/-- Mutable world outside the client object: the config file and how many
network calls have been issued to each endpoint so far. -/
structure World where
  file : FileContent
  compCount : Nat
  refrCount : Nat
deriving Repr

/-- How a call to `refresh_api_key` ends: normal return, or fuel exhausted
(the recursion at lines 154 and 157 of the source is unbounded). -/
inductive RefreshOut where
  | done
  | outOfFuel
deriving Repr

/-- `refresh_api_key` (lines 101-157).  One network attempt per unit of
fuel: `requests.post` to the acquisition endpoint, then `raise_for_status`
(raises `HTTPError`, a subclass of `RequestException`, iff `400 ≤ status`),
then on `status == 200 and response.ok` the raw response body is written to
the config file.  Every exception raised inside the `try` is caught by one
of the `except` clauses; the `RequestException` clause and the catch-all
`Exception` clause print and recurse.  A non-error status other than 200
(the `else` at line 143) only logs and returns: no retry and no write.
`self` is read (the cookie header) but never written — in particular
`self.api_key` is never assigned — so the client is returned unchanged in
every branch. -/
def refresh_api_key (env : Env) : Nat → Client → World → RefreshOut × Client × World
  | 0, c, w => (RefreshOut.outOfFuel, c, w)
  | fuel + 1, c, w =>
    let outcome := env.refresh w.refrCount
    let w := { w with refrCount := w.refrCount + 1 }
    match outcome with
    | .exn _ => refresh_api_key env fuel c w
    | .resp status body =>
      if 400 ≤ status then
        refresh_api_key env fuel c w
      else if status == 200 then
        (RefreshOut.done, c, { w with file := FileContent.json body })
      else
        (RefreshOut.done, c, w)

/-- How `__init__` ends: a constructed client, `raise ValueError` (line 99),
or fuel exhausted inside `refresh_api_key`. -/
inductive InitResult where
  | ok (c : Client)
  | valueError
  | outOfFuel
deriving Repr

/-- `__init__` (lines 35-99), called either on a fresh object (`prevKey =
none`: no `api_key` attribute exists yet) or through `self.__init__` on an
existing object (line 195), where a previously assigned `self.api_key`
survives any branch that does not reassign it.  Cookie branch: if the config
file is missing, create it holding an empty dict and call `refresh_api_key`
(which never assigns `self.api_key`); if present, load it (a malformed file
raises `JSONDecodeError`, caught at line 88, leading to a refresh), extract
the key (a non-dict raises `AttributeError`, caught, leading to a refresh;
the attribute keeps its previous value because the right-hand side raised
before assignment), assign it, and refresh when it is falsy.  API-key
branch: store the input string as-is, no file or network access.
Otherwise: raise `ValueError`, no file or network access. -/
def clientInit (env : Env) (fuel : Nat) (cookies_or_api_key : Option String)
    (max_tokens : Nat) (timeout : Nat) (model : String) (temperature : Rat)
    (top_p : Rat) (system_prompt : String) (prevKey : Option Json)
    (w : World) : InitResult × World :=
  let mk : Option Json → Client := fun k =>
    { cookies_or_api_key, max_tokens, timeout, model, temperature, top_p,
      system_prompt, api_key := k }
  if pyTruthyOptStr cookies_or_api_key
      && pyStartswith (cookies_or_api_key.getD "") "cookieyes-consent" then
    match w.file with
    | .absent =>
      let w := { w with file := FileContent.json (Json.obj []) }
      match refresh_api_key env fuel (mk prevKey) w with
      | (RefreshOut.done, c, w) => (InitResult.ok c, w)
      | (RefreshOut.outOfFuel, _, w) => (InitResult.outOfFuel, w)
    | .invalid =>
      match refresh_api_key env fuel (mk prevKey) w with
      | (RefreshOut.done, c, w) => (InitResult.ok c, w)
      | (RefreshOut.outOfFuel, _, w) => (InitResult.outOfFuel, w)
    | .json data =>
      match extractApiKey data with
      | none =>
        match refresh_api_key env fuel (mk prevKey) w with
        | (RefreshOut.done, c, w) => (InitResult.ok c, w)
        | (RefreshOut.outOfFuel, _, w) => (InitResult.outOfFuel, w)
      | some v =>
        if v.truthy then (InitResult.ok (mk (some v)), w)
        else
          match refresh_api_key env fuel (mk (some v)) w with
          | (RefreshOut.done, c, w) => (InitResult.ok c, w)
          | (RefreshOut.outOfFuel, _, w) => (InitResult.outOfFuel, w)
  else if pyTruthyOptStr cookies_or_api_key
      && pyStartswith (cookies_or_api_key.getD "") "csk-" then
    (InitResult.ok (mk (some (Json.str (cookies_or_api_key.getD "")))), w)
  else
    (InitResult.valueError, w)

/-- How a call to `generate` ends: a returned Python value (`.ok`; error
strings are returned as `.ok (.str _)`), an uncaught `AttributeError` from
reading a never-assigned `self.api_key` outside the `try` block (lines
169-172), or fuel exhausted in the unbounded 401 recursion. -/
inductive GenResult where
  | ok (v : Json)
  | attrError
  | outOfFuel
deriving Repr

/-- Line 200. -/
def unexpectedStatusMsg (status : Nat) : String :=
  "ğŸš¨ Alert: Received unexpected status code " ++ toString status
    ++ ". Please check the request and try again."

/-- Line 202 (`except Exception as e`). -/
def anErrorOccurred (e : String) : String :=
  "ğŸš¨ An error occurred: " ++ e

/-- Line 99. -/
def valueErrorMsg : String :=
  "Cookies or API Key must be provided to initialize the class."

/-- `generate` (lines 159-202).  The headers (reading `self.api_key`) are
built before the `try` block, so a missing attribute raises
`AttributeError` to the caller.  Inside `try`: POST the request built by
`mkCompletionRequest`; on 401 call `refresh_api_key`, then `self.__init__`
with the stored constructor arguments, then recurse on the same prompt
(each recursion level consumes one unit of fuel); on `status == 200 and
response.ok` extract and return the content of the first choice; otherwise
return the unexpected-status string.  Any exception raised inside the `try`
(network error, JSON extraction failure, `ValueError` from `__init__`, or an
`AttributeError` surfacing from the recursive `generate` call) is caught at
line 201 and converted to a returned error string. -/
def generate (env : Env) : Nat → Client → String → World → GenResult × World
  | 0, _, _, w => (GenResult.outOfFuel, w)
  | fuel + 1, c, prompt, w =>
    match c.api_key with
    | none => (GenResult.attrError, w)
    | some key =>
      let req := mkCompletionRequest c key prompt
      let outcome := env.completion w.compCount req
      let w := { w with compCount := w.compCount + 1 }
      match outcome with
      | .exn msg => (GenResult.ok (Json.str (anErrorOccurred msg)), w)
      | .resp status body =>
        if status == 401 then
          match refresh_api_key env fuel c w with
          | (RefreshOut.outOfFuel, _, w) => (GenResult.outOfFuel, w)
          | (RefreshOut.done, c, w) =>
            match clientInit env fuel c.cookies_or_api_key c.max_tokens
                c.timeout c.model c.temperature c.top_p c.system_prompt
                c.api_key w with
            | (InitResult.valueError, w) =>
              (GenResult.ok (Json.str (anErrorOccurred valueErrorMsg)), w)
            | (InitResult.outOfFuel, w) => (GenResult.outOfFuel, w)
            | (InitResult.ok c, w) =>
              match generate env fuel c prompt w with
              | (GenResult.attrError, w) =>
                (GenResult.ok (Json.str (anErrorOccurred
                  "AttributeError: Cerebras object has no attribute api_key")), w)
              | r => r
        else if status == 200 then
          match extractContent body with
          | Except.ok v => (GenResult.ok v, w)
          | Except.error e => (GenResult.ok (Json.str (anErrorOccurred e)), w)
        else
          (GenResult.ok (Json.str (unexpectedStatusMsg status)), w)

/-! ## Fixtures: concrete bodies, clients, worlds and environments -/

/-- Shape of a successful credential-acquisition response: the new key sits
under `data.GetMyDemoApiKey`, the path read at line 81. -/
def demoKeyBody (k : String) : Json :=
  Json.obj [("data", Json.obj [("GetMyDemoApiKey", Json.str k)])]

/-- Shape of a successful completion response:
`\x7b"choices": [\x7b"message": \x7b"content": x\x7d\x7d]\x7d`. -/
def choicesBody (x : String) : Json :=
  Json.obj [("choices",
    Json.arr [Json.obj [("message", Json.obj [("content", Json.str x)])]])]

/-- A cookie-mode client holding the in-memory credential `old-key`. -/
def cOld : Client :=
  { cookies_or_api_key := some "cookieyes-consent=abc", max_tokens := 2048,
    timeout := 30, model := "llama-3.3-70b", temperature := 3/4, top_p := 9/10,
    system_prompt := "You are a helpful assistant.",
    api_key := some (Json.str "old-key") }

/-- A world whose config file caches the acquisition response for `old-key`. -/
def wOld : World :=
  { file := FileContent.json (demoKeyBody "old-key"),
    compCount := 0, refrCount := 0 }

/-- A world with no config file. -/
def wAbsent : World :=
  { file := FileContent.absent, compCount := 0, refrCount := 0 }

/-- Acquisition always succeeds with a fresh key `new-key`. -/
def envNewKey : Env :=
  { completion := fun _ _ => HttpOutcome.exn "unused",
    refresh := fun _ => HttpOutcome.resp 200 (demoKeyBody "new-key") }

/-- Every completion call answers 200 with content `X`. -/
def envOK : Env :=
  { completion := fun _ _ => HttpOutcome.resp 200 (choicesBody "X"),
    refresh := fun _ => HttpOutcome.exn "unused" }

/-- Every completion call answers 500. -/
def env500 : Env :=
  { completion := fun _ _ => HttpOutcome.resp 500 (Json.obj []),
    refresh := fun _ => HttpOutcome.exn "unused" }

/-- Every network call raises a connection error. -/
def envAllFail : Env :=
  { completion := fun _ _ => HttpOutcome.exn "unused",
    refresh := fun _ => HttpOutcome.exn "connection error" }

/-- Every acquisition call answers with the unexpected status 201 (on which
`raise_for_status` does not raise). -/
def env201 : Env :=
  { completion := fun _ _ => HttpOutcome.exn "unused",
    refresh := fun _ => HttpOutcome.resp 201 (Json.obj []) }

/-- Every completion call answers 401; every acquisition call succeeds with
a fresh key. -/
def env401 : Env :=
  { completion := fun _ _ => HttpOutcome.resp 401 (Json.obj []),
    refresh := fun _ => HttpOutcome.resp 200 (demoKeyBody "fresh-key") }

/-- A cookie-mode client whose in-memory credential the server rejects. -/
def c401 : Client :=
  { cookies_or_api_key := some "cookieyes-consent=demo", max_tokens := 2048,
    timeout := 30, model := "llama-3.3-70b", temperature := 3/4, top_p := 9/10,
    system_prompt := "You are a helpful assistant.",
    api_key := some (Json.str "expired-key") }

/-- The world the rejected client runs in. -/
def w401 : World :=
  { file := FileContent.json (demoKeyBody "expired-key"),
    compCount := 0, refrCount := 0 }

/-- An acquisition attempt the source retries on: a raised network-layer
exception, or an HTTP error status that makes `raise_for_status` raise. -/
def hardFailure : HttpOutcome → Prop
  | .exn _ => True
  | .resp status _ => 400 ≤ status

/-! ## Helper lemmas -/

/-- A string starting with `csk-` cannot also start with `cookieyes-consent`
(they differ at the second character). -/
theorem csk_not_cookie (s : String) (h : pyStartswith s "csk-" = true) :
    pyStartswith s "cookieyes-consent" = false := by
  unfold pyStartswith at h ⊢
  rw [ List.isPrefixOf_iff_prefix] at h
  rw [Bool.eq_false_iff, Ne, List.isPrefixOf_iff_prefix]
  intro hc
  obtain ⟨t, ht⟩ := h
  obtain ⟨u, hu⟩ := hc
  rw [← ht] at hu
  simp [show "cookieyes-consent".data
      = ['c','o','o','k','i','e','y','e','s','-','c','o','n','s','e','n','t'] from rfl,
    show "csk-".data = ['c','s','k','-'] from rfl] at hu

/-- A string with a nonempty prefix is itself nonempty, hence truthy. -/
theorem nonempty_of_startsWith (s pre : String) (hpre : pre.data ≠ [])
    (h : pyStartswith s pre = true) : s.data.isEmpty = false := by
  unfold pyStartswith at h
  rw [ List.isPrefixOf_iff_prefix] at h
  obtain ⟨t, ht⟩ := h
  cases hp : pre.data with
  | nil => exact absurd hp hpre
  | cons a l =>
    rw [hp] at ht
    rw [← ht]
    simp

/-- A successful (status 200) acquisition attempt: `refresh_api_key` returns
normally, overwrites the config file with the raw response body, issues
exactly one network call, and leaves the client object untouched. -/
theorem refresh_api_key_success (env : Env) (fuel : Nat) (c : Client)
    (w : World) (body : Json)
    (hresp : env.refresh w.refrCount = HttpOutcome.resp 200 body) :
    refresh_api_key env (fuel + 1) c w
      = (RefreshOut.done, c,
         { file := FileContent.json body, compCount := w.compCount,
           refrCount := w.refrCount + 1 }) := by
  simp [refresh_api_key, hresp]

/-- One unfolding of the 401 branch of `generate`: a 401 response triggers a
refresh, a reconstruction, and a recursive call on the same prompt; when the
recursive call runs out of fuel, so does the whole call. -/
theorem generate_401_step (env : Env) (n : Nat) (c cNew : Client) (key : Json)
    (prompt : String) (w wNew wNew2 : World) (b401 : Json)
    (hk : c.api_key = some key)
    (hcomp : env.completion w.compCount (mkCompletionRequest c key prompt)
      = HttpOutcome.resp 401 b401)
    (hrefr : refresh_api_key env n c { w with compCount := w.compCount + 1 }
      = (RefreshOut.done, c, wNew))
    (hinit : clientInit env n c.cookies_or_api_key c.max_tokens c.timeout
        c.model c.temperature c.top_p c.system_prompt (some key) wNew
      = (InitResult.ok cNew, wNew2))
    (hinner : (generate env n cNew prompt wNew2).1 = GenResult.outOfFuel) :
    (generate env (n + 1) c prompt w).1 = GenResult.outOfFuel := by
  simp only [generate, hk, hcomp, beq_self_eq_true, if_true, hrefr, hinit]
  rcases hg : generate env n cNew prompt wNew2 with ⟨res, w4⟩
  rw [hg] at hinner
  subst hinner
  rfl

/-- Under `env401` (every completion answers 401, every acquisition
succeeds), `generate` exhausts any amount of fuel: the source recursion
`401 → refresh → __init__ → generate` never leaves the loop. -/
theorem generate_env401_diverges :
    ∀ (fuel : Nat) (c : Client) (prompt : String) (w : World),
      c.cookies_or_api_key = some "cookieyes-consent=demo" →
      c.api_key.isSome = true →
      (generate env401 fuel c prompt w).1 = GenResult.outOfFuel := by
  intro fuel
  induction fuel with
  | zero => intro c prompt w _ _; rfl
  | succ n ih =>
    intro c prompt w hcook hkey
    obtain ⟨k, hk⟩ : ∃ k, c.api_key = some k := Option.isSome_iff_exists.mp hkey
    match n with
    | 0 =>
      simp only [generate, hk]
      rfl
    | m + 1 =>
      refine generate_401_step env401 (m + 1) c
        { cookies_or_api_key := some "cookieyes-consent=demo",
          max_tokens := c.max_tokens, timeout := c.timeout, model := c.model,
          temperature := c.temperature, top_p := c.top_p,
          system_prompt := c.system_prompt,
          api_key := some (Json.str "fresh-key") } k prompt w
        { file := FileContent.json (demoKeyBody "fresh-key"),
          compCount := w.compCount + 1, refrCount := w.refrCount + 1 }
        { file := FileContent.json (demoKeyBody "fresh-key"),
          compCount := w.compCount + 1, refrCount := w.refrCount + 1 }
        (Json.obj []) hk rfl ?_ ?_ ?_
      · exact refresh_api_key_success env401 m c
          { w with compCount := w.compCount + 1 } (demoKeyBody "fresh-key") rfl
      · rw [hcook]; rfl
      · exact ih _ prompt _ rfl rfl

/-! ## Claim theorems -/

/-- C1: the claim requires that on a 401 the client refreshes once, retries
once, and terminates with a reported error if the retry also yields 401.
The source instead recurses: under persistent 401 responses (with refreshes
succeeding), `generate` never returns for any amount of fuel, and by fuel 5
it has already issued 4 credential refreshes and 5 completion attempts —
more than the single refresh and single retry the claim allows. -/
theorem generate_persistent_401_diverges :
    (∀ fuel, (generate env401 fuel c401 "what is Thermodynamics?" w401).1
      = GenResult.outOfFuel)
    ∧ (generate env401 5 c401 "what is Thermodynamics?" w401).2.refrCount = 4
    ∧ (generate env401 5 c401 "what is Thermodynamics?" w401).2.compCount = 5 := by
  refine ⟨fun fuel => generate_env401_diverges fuel c401
    "what is Thermodynamics?" w401 rfl rfl, rfl, rfl⟩

/-- C2 (counterexample): a successful refresh does not update the in-memory
credential.  With the client holding `old-key` and the acquisition endpoint
returning `new-key`, `refresh_api_key` rewrites the cache file to the
`new-key` response but returns the client object bitwise unchanged, its
`api_key` still `old-key` — distinct from the newly acquired credential. -/
theorem refresh_success_api_key_unchanged_cex :
    (refresh_api_key envNewKey 3 cOld wOld).1 = RefreshOut.done
    ∧ (refresh_api_key envNewKey 3 cOld wOld).2.2.file
        = FileContent.json (demoKeyBody "new-key")
    ∧ (refresh_api_key envNewKey 3 cOld wOld).2.1 = cOld
    ∧ cOld.api_key = some (Json.str "old-key")
    ∧ extractApiKey (demoKeyBody "new-key") = some (Json.str "new-key")
    ∧ some (Json.str "old-key") ≠ some (Json.str "new-key") := by
  refine ⟨rfl, rfl, rfl, rfl, rfl, ?_⟩
  intro h
  injection h with h1
  injection h1 with h2
  exact absurd h2 (by decide)

/-- C2 (amended): on a successful acquisition response, `refresh_api_key`
updates only the on-disk cache file (with the raw response) and issues one
network call; the client object — in particular its in-memory credential
`api_key` — is left unchanged.  The in-memory credential is refreshed only
when `__init__` re-reads the cache, as in the 401 retry path. -/
theorem refresh_success_updates_file_only (env : Env) (fuel : Nat)
    (c : Client) (w : World) (body : Json)
    (hresp : env.refresh w.refrCount = HttpOutcome.resp 200 body) :
    refresh_api_key env (fuel + 1) c w
      = (RefreshOut.done, c,
         { file := FileContent.json body, compCount := w.compCount,
           refrCount := w.refrCount + 1 }) :=
  refresh_api_key_success env fuel c w body hresp

/-- C2 (witness): the amended theorem applied to the concrete refresh run
of the counterexample. -/
theorem refresh_success_updates_file_only_witness :
    envNewKey.refresh wOld.refrCount
      = HttpOutcome.resp 200 (demoKeyBody "new-key")
    ∧ refresh_api_key envNewKey 1 cOld wOld
      = (RefreshOut.done, cOld,
         { file := FileContent.json (demoKeyBody "new-key"),
           compCount := 0, refrCount := 1 }) :=
  ⟨rfl, refresh_success_updates_file_only envNewKey 0 cOld wOld
    (demoKeyBody "new-key") rfl⟩

/-- C3: with a stored credential, a 200 completion response whose body is
`choicesBody x` makes `generate` return exactly the string `x`. -/
theorem generate_200_returns_content (env : Env) (fuel : Nat) (c : Client)
    (key : Json) (prompt x : String) (w : World)
    (hkey : c.api_key = some key)
    (hresp : env.completion w.compCount (mkCompletionRequest c key prompt)
      = HttpOutcome.resp 200 (choicesBody x)) :
    (generate env (fuel + 1) c prompt w).1 = GenResult.ok (Json.str x) := by
  simp only [generate, hkey, hresp]
  simp [extractContent, Json.subKey, Json.subIdx, choicesBody, List.lookup,
    bind, Except.bind]

/-- C3 (witness): the concrete client `cOld` under `envOK` gets back `X`. -/
theorem generate_200_returns_content_witness :
    cOld.api_key = some (Json.str "old-key")
    ∧ (generate envOK 1 cOld "what is Thermodynamics?" wOld).1
        = GenResult.ok (Json.str "X") :=
  ⟨rfl, generate_200_returns_content envOK 0 cOld (Json.str "old-key")
    "what is Thermodynamics?" "X" wOld rfl rfl⟩

/-- C4: a construction input starting with `csk-` takes the direct
credential branch: the input string is stored unchanged as the credential
and the world — the config file and both network-call counters, in
particular the acquisition counter — is returned untouched. -/
theorem init_api_key_mode_no_network (env : Env) (fuel : Nat) (s : String)
    (mt t : Nat) (mdl : String) (temp tp : Rat) (sp : String)
    (prevKey : Option Json) (w : World)
    (h : pyStartswith s "csk-" = true) :
    clientInit env fuel (some s) mt t mdl temp tp sp prevKey w
      = (InitResult.ok
          { cookies_or_api_key := some s, max_tokens := mt, timeout := t,
            model := mdl, temperature := temp, top_p := tp,
            system_prompt := sp, api_key := some (Json.str s) }, w) := by
  have hc := csk_not_cookie s h
  have hne := nonempty_of_startsWith s "csk-" (by decide) h
  unfold clientInit
  simp [pyTruthyOptStr, hc, hne, h]

/-- C4 (witness): constructing from `csk-demo-123` under an environment
whose every network call would fail. -/
theorem init_api_key_mode_no_network_witness :
    pyStartswith "csk-demo-123" "csk-" = true
    ∧ clientInit envAllFail 3 (some "csk-demo-123") 2048 30 "llama-3.3-70b"
        (3/4) (9/10) "You are a helpful assistant." none wAbsent
      = (InitResult.ok
          { cookies_or_api_key := some "csk-demo-123", max_tokens := 2048,
            timeout := 30, model := "llama-3.3-70b", temperature := 3/4,
            top_p := 9/10, system_prompt := "You are a helpful assistant.",
            api_key := some (Json.str "csk-demo-123") }, wAbsent) :=
  ⟨rfl, init_api_key_mode_no_network envAllFail 3 "csk-demo-123" 2048 30
    "llama-3.3-70b" (3/4) (9/10) "You are a helpful assistant." none wAbsent
    rfl⟩

/-- C5: a construction input that is `None` or starts with neither prefix
(the empty string included, since both prefix tests fail on it) raises
`ValueError` and returns the world untouched: no network call, no file
access, no retry. -/
theorem init_invalid_input_valueError (env : Env) (fuel : Nat)
    (x : Option String) (mt t : Nat) (mdl : String) (temp tp : Rat)
    (sp : String) (prevKey : Option Json) (w : World)
    (h : ∀ s, x = some s → pyStartswith s "cookieyes-consent" = false
        ∧ pyStartswith s "csk-" = false) :
    clientInit env fuel x mt t mdl temp tp sp prevKey w
      = (InitResult.valueError, w) := by
  unfold clientInit
  cases x with
  | none => simp [pyTruthyOptStr]
  | some s =>
    obtain ⟨h1, h2⟩ := h s rfl
    simp [pyTruthyOptStr, h1, h2]

/-- C5 (witness): the empty-string input raises `ValueError` with the world
untouched. -/
theorem init_invalid_input_valueError_witness :
    clientInit envAllFail 3 (some "") 2048 30 "llama-3.3-70b" (3/4) (9/10)
      "You are a helpful assistant." none wAbsent
      = (InitResult.valueError, wAbsent) :=
  init_invalid_input_valueError envAllFail 3 (some "") 2048 30
    "llama-3.3-70b" (3/4) (9/10) "You are a helpful assistant." none wAbsent
    (fun s hs => by
      injection hs with hs
      subst hs
      exact ⟨rfl, rfl⟩)

/-- C6: a completion status that is neither 200 nor 401 makes `generate`
return the error string naming that status; the final world shows exactly
one completion call, no acquisition call, and an unchanged file — no retry
and no credential refresh. -/
theorem generate_unexpected_status_no_retry (env : Env) (fuel : Nat)
    (c : Client) (key : Json) (prompt : String) (w : World) (status : Nat)
    (body : Json)
    (hkey : c.api_key = some key)
    (h200 : status ≠ 200) (h401 : status ≠ 401)
    (hresp : env.completion w.compCount (mkCompletionRequest c key prompt)
      = HttpOutcome.resp status body) :
    generate env (fuel + 1) c prompt w
      = (GenResult.ok (Json.str (unexpectedStatusMsg status)),
         { file := w.file, compCount := w.compCount + 1,
           refrCount := w.refrCount }) := by
  simp only [generate, hkey, hresp]
  simp [h200, h401]

/-- C6 (witness): a 500 response under `env500`. -/
theorem generate_unexpected_status_no_retry_witness :
    (500 : Nat) ≠ 200 ∧ (500 : Nat) ≠ 401
    ∧ generate env500 1 cOld "what is Thermodynamics?" wOld
      = (GenResult.ok (Json.str (unexpectedStatusMsg 500)),
         { file := wOld.file, compCount := 1, refrCount := 0 }) :=
  ⟨by decide, by decide,
   generate_unexpected_status_no_retry env500 0 cOld (Json.str "old-key")
     "what is Thermodynamics?" wOld 500 (Json.obj []) rfl (by decide)
     (by decide) rfl⟩

/-- C7: with a stored credential, an exception raised while sending the
completion request, and an exception raised while extracting the choice
content from a 200 response, are both caught inside `generate` and turned
into a returned error string — never propagated (the result is `.ok`, not
an uncaught-exception outcome). -/
theorem generate_catches_exceptions (env : Env) (fuel : Nat) (c : Client)
    (key : Json) (prompt : String) (w : World)
    (hkey : c.api_key = some key) :
    (∀ msg, env.completion w.compCount (mkCompletionRequest c key prompt)
        = HttpOutcome.exn msg →
      (generate env (fuel + 1) c prompt w).1
        = GenResult.ok (Json.str (anErrorOccurred msg)))
    ∧ (∀ body e, env.completion w.compCount (mkCompletionRequest c key prompt)
        = HttpOutcome.resp 200 body →
      extractContent body = Except.error e →
      (generate env (fuel + 1) c prompt w).1
        = GenResult.ok (Json.str (anErrorOccurred e))) := by
  constructor
  · intro msg hresp
    simp only [generate, hkey, hresp]
  · intro body e hresp hext
    simp only [generate, hkey, hresp]
    simp [hext]

/-- C7 (witness): a raised connection error under `envAllFail` comes back as
the error string. -/
theorem generate_catches_exceptions_witness :
    cOld.api_key = some (Json.str "old-key")
    ∧ (generate envAllFail 1 cOld "what is Thermodynamics?" wOld).1
        = GenResult.ok (Json.str (anErrorOccurred "unused")) :=
  ⟨rfl, (generate_catches_exceptions envAllFail 0 cOld (Json.str "old-key")
    "what is Thermodynamics?" wOld rfl).1 "unused" rfl⟩

/-- C8: whatever timeout the client was configured with, the completion
request that `generate` sends carries `timeout=None` — the `timeout` field
of `mkCompletionRequest`, the request builder `generate` posts, is `none`
for every client and prompt. -/
theorem completion_request_timeout_is_none (c : Client) (key : Json)
    (prompt : String) :
    (mkCompletionRequest c key prompt).timeout = none := rfl

/-- C9 (counterexample): persistent failure does not always mean unbounded
retry.  Under `env201` every acquisition attempt ends with the unexpected
status 201 — a failure the source logs as such — yet `refresh_api_key`
returns normally after exactly one network call, without retrying and
without writing the file. -/
theorem refresh_status_201_terminates_cex :
    (refresh_api_key env201 5 cOld wOld).1 = RefreshOut.done
    ∧ (refresh_api_key env201 5 cOld wOld).2.2.refrCount = 1
    ∧ (refresh_api_key env201 5 cOld wOld).2.2.file = wOld.file :=
  ⟨rfl, rfl, rfl⟩

/-- C9 (amended): when every acquisition attempt is a hard failure — a
network-layer exception or an HTTP error status (≥ 400), the cases whose
exceptions reach the retrying `except` clauses — `refresh_api_key` retries
recursively without bound: it consumes one network attempt per unit of fuel
and never terminates normally.  (A non-error status other than 200, e.g.
201, instead logs and returns without retrying.) -/
theorem refresh_hard_failure_never_terminates (env : Env)
    (h : ∀ i, hardFailure (env.refresh i)) :
    ∀ (fuel : Nat) (c : Client) (w : World),
      (refresh_api_key env fuel c w).1 = RefreshOut.outOfFuel
      ∧ (refresh_api_key env fuel c w).2.2.refrCount = w.refrCount + fuel := by
  intro fuel
  induction fuel with
  | zero => intro c w; exact ⟨rfl, rfl⟩
  | succ n ih =>
    intro c w
    have hi := h w.refrCount
    unfold refresh_api_key
    rcases ho : env.refresh w.refrCount with ⟨status, body⟩ | msg
    · rw [ho] at hi
      unfold hardFailure at hi
      simp only [ho]
      rw [if_pos hi]
      have := ih c { w with refrCount := w.refrCount + 1 }
      constructor
      · exact this.1
      · rw [this.2]; simp; omega
    · simp only [ho]
      have := ih c { w with refrCount := w.refrCount + 1 }
      constructor
      · exact this.1
      · rw [this.2]; simp; omega

/-- C9 (witness): under `envAllFail` (every attempt raises), 7 units of fuel
are burnt in 7 attempts and the call never returns normally. -/
theorem refresh_hard_failure_never_terminates_witness :
    (∀ i, hardFailure (envAllFail.refresh i))
    ∧ (refresh_api_key envAllFail 7 cOld wOld).1 = RefreshOut.outOfFuel
    ∧ (refresh_api_key envAllFail 7 cOld wOld).2.2.refrCount = 7 :=
  ⟨fun _ => trivial,
   (refresh_hard_failure_never_terminates envAllFail (fun _ => trivial) 7
     cOld wOld).1,
   (refresh_hard_failure_never_terminates envAllFail (fun _ => trivial) 7
     cOld wOld).2⟩

/-- C10: constructing a cookie-mode client with no cache file creates the
file, refreshes (which writes only the file and never assigns the `api_key`
attribute), and yields a client whose `api_key` attribute is unset; every
subsequent `generate` call on that client reads `self.api_key` outside its
`try` block and raises `AttributeError` instead of returning an error
string, whatever the environment. -/
theorem cookie_client_missing_cache_attrError (env : Env) (w : World)
    (s : String) (mt t : Nat) (mdl : String) (temp tp : Rat) (sp : String)
    (body : Json) (fuel : Nat)
    (hfile : w.file = FileContent.absent)
    (hcookie : pyStartswith s "cookieyes-consent" = true)
    (hrefresh : env.refresh w.refrCount = HttpOutcome.resp 200 body) :
    ∃ c : Client,
      clientInit env (fuel + 1) (some s) mt t mdl temp tp sp none w
        = (InitResult.ok c,
           { file := FileContent.json body, compCount := w.compCount,
             refrCount := w.refrCount + 1 })
      ∧ c.api_key = none
      ∧ ∀ (env2 : Env) (fuel2 : Nat) (prompt : String) (w3 : World),
          generate env2 (fuel2 + 1) c prompt w3 = (GenResult.attrError, w3) := by
  have hne := nonempty_of_startsWith s "cookieyes-consent" (by decide) hcookie
  refine ⟨{ cookies_or_api_key := some s, max_tokens := mt, timeout := t,
            model := mdl, temperature := temp, top_p := tp,
            system_prompt := sp, api_key := none }, ?_, rfl, ?_⟩
  · unfold clientInit
    simp only [pyTruthyOptStr, hne, hcookie, Option.getD, Bool.not_false,
      Bool.and_self, if_pos]
    rw [hfile]
    have hr := refresh_api_key_success env fuel
      { cookies_or_api_key := some s, max_tokens := mt, timeout := t,
        model := mdl, temperature := temp, top_p := tp,
        system_prompt := sp, api_key := none }
      { w with file := FileContent.json (Json.obj []) } body hrefresh
    simp only [hr]
  · intro env2 fuel2 prompt w3
    simp only [generate]

/-- C10 (witness): a concrete cookie client built over an absent cache file
under `envNewKey`; its later `generate` raises `AttributeError`. -/
theorem cookie_client_missing_cache_attrError_witness :
    wAbsent.file = FileContent.absent
    ∧ pyStartswith "cookieyes-consent=demo" "cookieyes-consent" = true
    ∧ ∃ c : Client,
        clientInit envNewKey 1 (some "cookieyes-consent=demo") 2048 30
            "llama-3.3-70b" (3/4) (9/10) "You are a helpful assistant." none
            wAbsent
          = (InitResult.ok c,
             { file := FileContent.json (demoKeyBody "new-key"),
               compCount := 0, refrCount := 1 })
        ∧ c.api_key = none
        ∧ ∀ (env2 : Env) (fuel2 : Nat) (prompt : String) (w3 : World),
            generate env2 (fuel2 + 1) c prompt w3 = (GenResult.attrError, w3) :=
  ⟨rfl, rfl,
   cookie_client_missing_cache_attrError envNewKey wAbsent
     "cookieyes-consent=demo" 2048 30 "llama-3.3-70b" (3/4) (9/10)
     "You are a helpful assistant." (demoKeyBody "new-key") 0 rfl rfl rfl⟩
